import Mathlib

/-!
Shallow embedding of `src/org/mozilla/jss/pkcs11/PK11Signature.c` (JSS).

The file models the JNI lifecycle bridge for NSS signing/verification
contexts: context creation (sign/verify), RSA-PSS parameter building,
the `SigContextProxy` record owning a native context and an optional
arena, the streaming update/finalize entry points and the raw one-shot
sign/verify entry points.

External collaborators (NSS primitives, JNI calls) are opaque: each
fallible native or JNI call is driven by an explicit Boolean oracle
giving its success/failure outcome, and native resources (contexts,
arenas, proxy records, temporary keys) are tracked in an explicit
`NativeState` which records allocation, destruction and any attempt to
destroy a resource that is not live (`doubleFree`).
-/

set_option maxRecDepth 4000

/-! ## Basic types from the source -/

/-- NSS `SECOidTag`, modelled as a plain tag value. -/
abbrev SECOidTag := Nat

def SEC_OID_UNKNOWN : SECOidTag := 0

def SEC_OID_PKCS1_RSA_PSS_SIGNATURE : SECOidTag := 235

/-- Some non-PSS signature oid (its exact value is irrelevant). -/
def SEC_OID_PKCS1_RSA_ENCRYPTION : SECOidTag := 16

/-- NSPR error code reported by `VFY_EndWithSignature`/`PK11_Verify` on a
signature mismatch (`SEC_ERROR_BASE + 10`). -/
def SEC_ERROR_BAD_SIGNATURE : Int := -8182

inductive SECStatus
  | SECSuccess
  | SECFailure
deriving DecidableEq, Repr

/-- The `SigContextType` tag from `SigContextProxyStr`. -/
inductive SigContextType
  | SGN_CONTEXT
  | VFY_CONTEXT
deriving DecidableEq, Repr

/-- Messages passed to `JSS_throwMsg` in the source, as an enumeration. -/
inductive ErrMsg
  | unableToCreateSigningContext
  | unableToBeginSigningContext
  | unableToCreateTempRSAKey
  | unableToCreateVfyContext
  | unableToBeginVerificationContext
  | unableToCreateSigAlgParams
  | unableToSetRSAPSSAlgID
  | updateFailed
  | signingOperationFailed
  | unableToRetrieveVerificationContext
  | verificationEngineHasSignatureContext
  | failedToCompleteVerification
  | verificationFailedOnToken
  | signatureFailedOnToken
deriving DecidableEq, Repr

/-- Java exceptions thrown at the JNI boundary.  `tokenException none`
models `JSS_throw(env, TOKEN_EXCEPTION)` with no message. -/
inductive JssError
  | outOfMemoryError
  | tokenException (msg : Option ErrMsg)
  | signatureException (msg : Option ErrMsg)
  | arrayIndexOutOfBoundsException
deriving DecidableEq, Repr

/-- Mode argument of `JSS_DerefByteArray` (`JNI_ABORT` discards the native
buffer without copying it back into the Java array). -/
inductive JniReleaseMode
  | commit
  | abort
deriving DecidableEq, Repr

/-- Two's-complement wraparound of 32-bit `jint` arithmetic. -/
def wrap32 (n : Int) : Int := (n + 2 ^ 31) % 2 ^ 32 - 2 ^ 31

/-! ## Streaming engine: engineUpdateNative (lines 219-270) -/

/-- Oracle for the fallible calls made by `engineUpdateNative`:
`getSigContext`, `JSS_RefByteArray`, the proxy's context type and the
outcome of `SGN_Update`/`VFY_Update`.  `ctxErr` is the exception pending
when `getSigContext` fails. -/
structure UpdateArgs where
  getCtxOk : Bool
  ctxErr : JssError
  refOk : Bool
  ctxtType : SigContextType
  nativeUpdateOk : Bool
deriving DecidableEq, Repr

structure UpdateResult where
  pending : Option JssError
  derefModes : List JniReleaseMode
  finalArray : List Int
  fed : Option (List Int)
deriving DecidableEq, Repr

/-- Model of `Java_org_mozilla_jss_pkcs11_PK11Signature_engineUpdateNative`.
The bounds check is the source's line 241:
`offset < 0 || offset >= numBytes || length < 0 || (offset+length) > numBytes || (offset+length) < 0`
with `jint` (wrapping 32-bit) addition.  On every path the borrowed
buffer, when one was obtained, is released with `JNI_ABORT`
(line 269), so the caller's array is returned unchanged. -/
def engineUpdateNative (a : UpdateArgs) (bArray : List Int) (offset length : Int) :
    UpdateResult :=
  if a.getCtxOk = false then
    -- getSigContext failed, exception pending (lines 229-232);
    -- finish: JSS_DerefByteArray with bytes == NULL is a no-op
    { pending := some a.ctxErr, derefModes := [], finalArray := bArray, fed := none }
  else if a.refOk = false then
    -- JSS_RefByteArray failed (lines 236-239)
    { pending := some JssError.outOfMemoryError, derefModes := [],
      finalArray := bArray, fed := none }
  else
    let numBytes : Int := bArray.length
    if offset < 0 ∨ offset ≥ numBytes ∨ length < 0 ∨
        wrap32 (offset + length) > numBytes ∨ wrap32 (offset + length) < 0 then
      { pending := some JssError.arrayIndexOutOfBoundsException,
        derefModes := [JniReleaseMode.abort], finalArray := bArray, fed := none }
    else
      -- bytes + offset, length (lines 250-252 / 259-261); same for both kinds
      let piece := (bArray.drop offset.toNat).take length.toNat
      if a.nativeUpdateOk then
        { pending := none, derefModes := [JniReleaseMode.abort],
          finalArray := bArray, fed := some piece }
      else
        { pending := some (JssError.signatureException (some ErrMsg.updateFailed)),
          derefModes := [JniReleaseMode.abort], finalArray := bArray, fed := some piece }

/-! ## Streaming engine: engineVerifyNative (lines 325-375) -/

/-- Oracle for `engineVerifyNative`: `getSigContext` outcome, the proxy's
context type, `JSS_RefByteArray` outcome, and the outcome of
`VFY_EndWithSignature` (`none` = `SECSuccess`, `some e` = failure with
`PR_GetError() = e`). -/
structure VerifyArgs where
  getCtxOk : Bool
  ctxtType : SigContextType
  refOk : Bool
  endOutcome : Option Int
deriving DecidableEq, Repr

structure VerifyResult where
  verified : Bool
  pending : Option JssError
  endCalled : Bool
  derefModes : List JniReleaseMode
  finalArray : List Int
deriving DecidableEq, Repr

/-- Model of `Java_org_mozilla_jss_pkcs11_PK11Signature_engineVerifyNative`.
A `SGN_CONTEXT` proxy is rejected with a SignatureException before the
native finalize (lines 345-350); `VFY_EndWithSignature` failure with
`SEC_ERROR_BAD_SIGNATURE` leaves `verified = JNI_FALSE` with no
exception, any other failure throws (lines 363-370); the signature
array is always released with `JNI_ABORT` (line 373). -/
def engineVerifyNative (a : VerifyArgs) (sigArray : List Int) : VerifyResult :=
  if a.getCtxOk = false then
    { verified := false,
      pending := some (JssError.signatureException
        (some ErrMsg.unableToRetrieveVerificationContext)),
      endCalled := false, derefModes := [], finalArray := sigArray }
  else if a.ctxtType ≠ SigContextType.VFY_CONTEXT then
    { verified := false,
      pending := some (JssError.signatureException
        (some ErrMsg.verificationEngineHasSignatureContext)),
      endCalled := false, derefModes := [], finalArray := sigArray }
  else if a.refOk = false then
    { verified := false, pending := some JssError.outOfMemoryError,
      endCalled := false, derefModes := [], finalArray := sigArray }
  else
    match a.endOutcome with
    | none =>
      { verified := true, pending := none, endCalled := true,
        derefModes := [JniReleaseMode.abort], finalArray := sigArray }
    | some e =>
      if e ≠ SEC_ERROR_BAD_SIGNATURE then
        { verified := false,
          pending := some (JssError.signatureException
            (some ErrMsg.failedToCompleteVerification)),
          endCalled := true, derefModes := [JniReleaseMode.abort],
          finalArray := sigArray }
      else
        { verified := false, pending := none, endCalled := true,
          derefModes := [JniReleaseMode.abort], finalArray := sigArray }

/-! ## Streaming engine: engineSignNative (lines 278-323) -/

/-- Oracle for `engineSignNative`: `getSigContext` outcome and pending
error, the proxy's context type, outcome of `SGN_End` (`some bytes` on
success), and outcome of `JSS_ToByteArray`. -/
structure SignArgs where
  getCtxOk : Bool
  ctxErr : JssError
  ctxtType : SigContextType
  endOutcome : Option (List Int)
  toByteArrayOk : Bool
deriving DecidableEq, Repr

structure SignResult where
  sigArray : Option (List Int)
  pending : Option JssError
  assertTypeFailed : Bool
  endCalled : Bool
deriving DecidableEq, Repr

/-- Model of `Java_org_mozilla_jss_pkcs11_PK11Signature_engineSignNative`.
The context type is checked only by the debug assertion
`PR_ASSERT(ctxt!=NULL && type==SGN_CONTEXT)` (line 298); `SGN_End` is
then invoked on whatever context the proxy holds (line 303). -/
def engineSignNative (a : SignArgs) : SignResult :=
  if a.getCtxOk = false then
    { sigArray := none, pending := some a.ctxErr,
      assertTypeFailed := false, endCalled := false }
  else
    let assertTypeFailed := a.ctxtType ≠ SigContextType.SGN_CONTEXT
    match a.endOutcome with
    | none =>
      { sigArray := none,
        pending := some (JssError.signatureException
          (some ErrMsg.signingOperationFailed)),
        assertTypeFailed := assertTypeFailed, endCalled := true }
    | some bytes =>
      if a.toByteArrayOk then
        { sigArray := some bytes, pending := none,
          assertTypeFailed := assertTypeFailed, endCalled := true }
      else
        { sigArray := none, pending := some JssError.outOfMemoryError,
          assertTypeFailed := assertTypeFailed, endCalled := true }

/-! ## Raw one-shot verify: engineRawVerifyNative (lines 855-900) -/

/-- Oracle for `engineRawVerifyNative`: conversions of the signature and
hash arrays, public-key lookup, and the outcome of `PK11_Verify`
(`none` = `SECSuccess`, `some e` = failure with `PR_GetError() = e`). -/
structure RawVerifyArgs where
  sigOk : Bool
  hashOk : Bool
  keyOk : Bool
  verifyOutcome : Option Int
deriving DecidableEq, Repr

structure RawVerifyResult where
  verified : Bool
  pending : Option JssError
  verifyCalled : Bool
deriving DecidableEq, Repr

/-- Model of `Java_org_mozilla_jss_pkcs11_PK11Signature_engineRawVerifyNative`.
`PK11_Verify` failure with `SEC_ERROR_BAD_SIGNATURE` returns
`JNI_FALSE` with no exception; any other failure throws a
SignatureException (lines 883-890). -/
def engineRawVerifyNative (a : RawVerifyArgs) : RawVerifyResult :=
  if a.sigOk = false then
    { verified := false, pending := some JssError.outOfMemoryError, verifyCalled := false }
  else if a.hashOk = false then
    { verified := false, pending := some JssError.outOfMemoryError, verifyCalled := false }
  else if a.keyOk = false then
    { verified := false, pending := some (JssError.tokenException none), verifyCalled := false }
  else
    match a.verifyOutcome with
    | none => { verified := true, pending := none, verifyCalled := true }
    | some e =>
      if e ≠ SEC_ERROR_BAD_SIGNATURE then
        { verified := false,
          pending := some (JssError.signatureException
            (some ErrMsg.verificationFailedOnToken)),
          verifyCalled := true }
      else
        { verified := false, pending := none, verifyCalled := true }

/-! ## Native resource state

Contexts, arenas, proxy records and temporary keys are identified by
`Nat` handles.  Allocation draws a fresh handle from `nextId`;
destroying or freeing a handle that is not live sets `doubleFree`
(modelling a double free / use of a dangling native pointer). -/

/-- Contents of `struct SigContextProxyStr` (lines 637-641). -/
structure SigContextProxyStr where
  ctxt : Nat
  type : SigContextType
  arena : Option Nat
deriving DecidableEq, Repr

structure NativeState where
  liveCtxts : List Nat
  liveArenas : List Nat
  proxyRecs : List (Nat × SigContextProxyStr)
  liveKeys : List Nat
  nextId : Nat
  doubleFree : Bool
deriving DecidableEq, Repr

def NativeState.empty : NativeState :=
  { liveCtxts := [], liveArenas := [], proxyRecs := [], liveKeys := [],
    nextId := 1, doubleFree := false }

def NativeState.allocCtxt (s : NativeState) : Nat × NativeState :=
  (s.nextId, { s with liveCtxts := s.nextId :: s.liveCtxts, nextId := s.nextId + 1 })

def NativeState.allocArena (s : NativeState) : Nat × NativeState :=
  (s.nextId, { s with liveArenas := s.nextId :: s.liveArenas, nextId := s.nextId + 1 })

def NativeState.allocProxyRec (s : NativeState) (contents : SigContextProxyStr) :
    Nat × NativeState :=
  (s.nextId,
   { s with proxyRecs := (s.nextId, contents) :: s.proxyRecs, nextId := s.nextId + 1 })

def NativeState.allocKey (s : NativeState) : Nat × NativeState :=
  (s.nextId, { s with liveKeys := s.nextId :: s.liveKeys, nextId := s.nextId + 1 })

/-- `SGN_DestroyContext`/`VFY_DestroyContext` with `freeit = PR_TRUE`. -/
def NativeState.destroyCtxt (s : NativeState) (c : Nat) : NativeState :=
  if c ∈ s.liveCtxts then { s with liveCtxts := s.liveCtxts.erase c }
  else { s with doubleFree := true }

/-- `PORT_FreeArena(arena, PR_TRUE)`; NSS's `PORT_FreeArena` is a no-op on
a NULL arena. -/
def NativeState.freeArenaPtr (s : NativeState) (a : Option Nat) : NativeState :=
  match a with
  | none => s
  | some a =>
    if a ∈ s.liveArenas then { s with liveArenas := s.liveArenas.erase a }
    else { s with doubleFree := true }

/-- `PR_Free(proxy)` on a `SigContextProxy` record. -/
def NativeState.freeProxyRec (s : NativeState) (p : Nat) : NativeState :=
  if (s.proxyRecs.lookup p).isSome then
    { s with proxyRecs := s.proxyRecs.filter (fun e => e.1 != p) }
  else { s with doubleFree := true }

/-- `SECKEY_DestroyPrivateKey`/`SECKEY_DestroyPublicKey`; both are no-ops
on a NULL key. -/
def NativeState.destroyKeyPtr (s : NativeState) (k : Option Nat) : NativeState :=
  match k with
  | none => s
  | some k =>
    if k ∈ s.liveKeys then { s with liveKeys := s.liveKeys.erase k }
    else { s with doubleFree := true }

/-! ## Algorithm resolvers (lines 384-446) -/

/-- Read-only view of the `PK11Signature` object's configuration fields:
the value the `algorithm` field resolves to, and the value the
`digestAlgorithm` field resolves to (`none` models a null field). -/
structure SigObj where
  algorithm : Option SECOidTag
  digestAlgorithm : Option SECOidTag
deriving DecidableEq, Repr

/-- Oracle for the JNI lookups (`GetObjectClass`, `GetFieldID`) a resolver
performs; these fail only on out-of-memory, with an exception pending. -/
structure JniFieldOracle where
  getClassOk : Bool
  getFieldOk : Bool
deriving DecidableEq, Repr

structure ResolverResult where
  tag : SECOidTag
  pending : Option JssError
  assertFailed : Bool
deriving DecidableEq, Repr

/-- Model of `getAlgorithm` (lines 384-413).  When the `algorithm` field
is null, `GetObjectField` returns NULL without an exception and
`ASSERT_OUTOFMEM` — a debug assertion that an exception is pending —
fails: the null field is treated as an error condition
(`assertFailed = true`), though `SEC_OID_UNKNOWN` is still returned. -/
def getAlgorithm (o : JniFieldOracle) (sig : SigObj) : ResolverResult :=
  if o.getClassOk = false then
    { tag := SEC_OID_UNKNOWN, pending := some JssError.outOfMemoryError,
      assertFailed := false }
  else if o.getFieldOk = false then
    { tag := SEC_OID_UNKNOWN, pending := some JssError.outOfMemoryError,
      assertFailed := false }
  else
    match sig.algorithm with
    | none => { tag := SEC_OID_UNKNOWN, pending := none, assertFailed := true }
    | some t => { tag := t, pending := none, assertFailed := false }

/-- Model of `getDigestAlgorithm` (lines 415-446).  A null
`digestAlgorithm` field deliberately returns `SEC_OID_UNKNOWN` with no
exception and no assertion (comment at lines 439-442). -/
def getDigestAlgorithm (o : JniFieldOracle) (sig : SigObj) : ResolverResult :=
  if o.getClassOk = false then
    { tag := SEC_OID_UNKNOWN, pending := some JssError.outOfMemoryError,
      assertFailed := false }
  else if o.getFieldOk = false then
    { tag := SEC_OID_UNKNOWN, pending := some JssError.outOfMemoryError,
      assertFailed := false }
  else
    match sig.digestAlgorithm with
    | none => { tag := SEC_OID_UNKNOWN, pending := none, assertFailed := false }
    | some t => { tag := t, pending := none, assertFailed := false }

/-! ## RSA-PSS parameter builder (lines 448-487) -/

/-- Oracle for the fallible calls made by `getRSAPSSParamsAndSigningAlg`:
`PORT_ArenaZAlloc`, `SEC_CreateSignatureAlgorithmParameters` and
`SECOID_SetAlgorithmID`. -/
structure PssOracle where
  zallocOk : Bool
  createParamsOk : Bool
  setAlgOk : Bool
deriving DecidableEq, Repr

/-- Parameters synthesized by `SEC_CreateSignatureAlgorithmParameters`,
recording the inputs the library policy was invoked with. -/
structure PssParams where
  sigAlg : SECOidTag
  digest : SECOidTag
  key : Nat
deriving DecidableEq, Repr

/-- A `SECAlgorithmID` allocated in the builder's arena; a freshly zeroed
one has `oid = SEC_OID_UNKNOWN` and no parameters. -/
structure SECAlgorithmID where
  oid : SECOidTag
  params : Option PssParams
deriving DecidableEq, Repr

/-- Trace of the native calls the builder performs, in order. -/
inductive PssCall
  | arenaZAlloc
  | resolveDigest
  | createSigAlgParams (sigAlg : SECOidTag) (digest : SECOidTag) (key : Nat)
  | setAlgorithmID (oid : SECOidTag)
deriving DecidableEq, Repr

structure PssBuildResult where
  rv : SECStatus
  pending : Option JssError
  alg : Option SECAlgorithmID
  calls : List PssCall
deriving DecidableEq, Repr

/-- Model of `getRSAPSSParamsAndSigningAlg` (lines 448-487): zero-allocate
a `SECAlgorithmID` from the arena, resolve the digest algorithm (may be
`SEC_OID_UNKNOWN`), synthesize PSS parameters for
`SEC_OID_PKCS1_RSA_PSS_SIGNATURE` with that digest and the supplied
private key, then bind them via `SECOID_SetAlgorithmID`.  All writes go
into the caller-owned arena; `alg` is the value stored through the
`SECAlgorithmID **alg` out-parameter. -/
def getRSAPSSParamsAndSigningAlg (o : PssOracle) (sig : SigObj) (privk : Nat)
    (algPtrNull : Bool) : PssBuildResult :=
  if algPtrNull then
    -- the alg == NULL guard (lines 457-459): silent SECFailure
    { rv := SECStatus.SECFailure, pending := none, alg := none, calls := [] }
  else if o.zallocOk = false then
    { rv := SECStatus.SECFailure, pending := some JssError.outOfMemoryError,
      alg := none, calls := [PssCall.arenaZAlloc] }
  else
    let digestAlg := (getDigestAlgorithm { getClassOk := true, getFieldOk := true } sig).tag
    if o.createParamsOk = false then
      { rv := SECStatus.SECFailure,
        pending := some (JssError.tokenException (some ErrMsg.unableToCreateSigAlgParams)),
        alg := none,
        calls := [PssCall.arenaZAlloc, PssCall.resolveDigest,
                  PssCall.createSigAlgParams SEC_OID_PKCS1_RSA_PSS_SIGNATURE digestAlg privk] }
    else
      let params : PssParams :=
        { sigAlg := SEC_OID_PKCS1_RSA_PSS_SIGNATURE, digest := digestAlg, key := privk }
      -- *alg = signAlg (line 478), then SECOID_SetAlgorithmID (line 479)
      if o.setAlgOk = false then
        { rv := SECStatus.SECFailure,
          pending := some (JssError.tokenException (some ErrMsg.unableToSetRSAPSSAlgID)),
          alg := some { oid := SEC_OID_UNKNOWN, params := none },
          calls := [PssCall.arenaZAlloc, PssCall.resolveDigest,
                    PssCall.createSigAlgParams SEC_OID_PKCS1_RSA_PSS_SIGNATURE digestAlg privk,
                    PssCall.setAlgorithmID SEC_OID_PKCS1_RSA_PSS_SIGNATURE] }
      else
        { rv := SECStatus.SECSuccess, pending := none,
          alg := some { oid := SEC_OID_PKCS1_RSA_PSS_SIGNATURE, params := some params },
          calls := [PssCall.arenaZAlloc, PssCall.resolveDigest,
                    PssCall.createSigAlgParams SEC_OID_PKCS1_RSA_PSS_SIGNATURE digestAlg privk,
                    PssCall.setAlgorithmID SEC_OID_PKCS1_RSA_PSS_SIGNATURE] }

/-! ## Proxy wrap (lines 694-767) -/

/-- Oracle for the fallible calls made by `JSS_PK11_wrapSigContextProxy`:
`PR_Malloc`, `FindClass`, `GetMethodID` and `NewObject`. -/
structure WrapOracle where
  mallocOk : Bool
  findClassOk : Bool
  getMethodOk : Bool
  newObjectOk : Bool
deriving DecidableEq, Repr

/-- Result of `JSS_PK11_wrapSigContextProxy`: the constructed Java proxy
object (identified by the proxy-record handle it wraps), the pending
exception on failure, and the caller's `*ctxt` and `*arena` variables
after the call (the second is `none` when no arena pointer was
passed). -/
structure WrapResult where
  Context : Option Nat
  pending : Option JssError
  ctxtVar : Option Nat
  arenaVar : Option (Option Nat)
  state : NativeState
deriving DecidableEq, Repr

/-- Model of `JSS_PK11_wrapSigContextProxy` (lines 694-767).  A
`SigContextProxy` record is `PR_Malloc`ed and filled with the context,
type, and `*arena` (lines 707-717).  If the Java object cannot be
constructed, the record is freed, the context destroyed and the arena
freed (lines 741-758).  In all cases `*ctxt` is nulled, and `*arena` is
nulled when an arena pointer was passed (lines 760-765). -/
def JSS_PK11_wrapSigContextProxy (o : WrapOracle) (ctxt : Nat) (type : SigContextType)
    (arena : Option (Option Nat)) (s : NativeState) : WrapResult :=
  let adopted : Option Nat := match arena with | none => none | some a => a
  let alloc : Option Nat × NativeState :=
    if o.mallocOk then
      let r := s.allocProxyRec { ctxt := ctxt, type := type, arena := adopted }
      (some r.1, r.2)
    else (none, s)
  match alloc with
  | (proxyAddr, s) =>
    if o.mallocOk && o.findClassOk && o.getMethodOk && o.newObjectOk then
      { Context := proxyAddr, pending := none, ctxtVar := none,
        arenaVar := arena.map (fun _ => none), state := s }
    else
      let s := match proxyAddr with
               | some p => s.freeProxyRec p
               | none => s
      let s := s.destroyCtxt ctxt
      let s := match arena with
               | some a => s.freeArenaPtr a
               | none => s
      { Context := none, pending := some JssError.outOfMemoryError,
        ctxtVar := none, arenaVar := arena.map (fun _ => none), state := s }

/-! ## Proxy release (lines 775-801) -/

/-- Model of
`Java_org_mozilla_jss_pkcs11_SigContextProxy_releaseNativeResources`
(lines 775-801).  `stored` is the native pointer held by the managed
proxy object (`none` when `JSS_getPtrFromProxy` fails or yields NULL,
lines 782-788).  A live record's context is destroyed, its arena freed
(`proxy->arena = NULL` afterwards) and the record itself freed.  A
stored pointer whose record is no longer live is a dangling native
pointer: the Boolean result flags that fault. -/
def releaseNativeResources (stored : Option Nat) (s : NativeState) :
    NativeState × Bool :=
  match stored with
  | none => (s, false)
  | some p =>
    match s.proxyRecs.lookup p with
    | none => ({ s with doubleFree := true }, true)
    | some rec =>
      let s := match rec.type with
               | SigContextType.SGN_CONTEXT => s.destroyCtxt rec.ctxt
               | SigContextType.VFY_CONTEXT => s.destroyCtxt rec.ctxt
      let s := s.freeArenaPtr rec.arena
      let s := s.freeProxyRec p
      (s, false)

/-- Modelled from the spec: the managed proxy layer (the `SigContextProxy`
Java class, which is not part of this source file) calls
`releaseNativeResources` on release and then clears the stored native
pointer, so that "a subsequent call observes an already-empty proxy and
does nothing".  `release` is one managed-level release step: the native
call followed by the clearing of the stored pointer. -/
def release (st : Option Nat × NativeState) : (Option Nat × NativeState) × Bool :=
  let r := releaseNativeResources st.1 st.2
  ((none, r.1), r.2)

/-! ## Context factory: initSigContext (lines 52-123) -/

/-- Oracle for the fallible calls of `initSigContext`: `getPrivateKey`,
`PORT_NewArena`, the PSS-builder calls, `SGN_NewContext`(`WithAlgorithmID`),
`SGN_Begin` and the wrap calls. -/
structure InitSigOracle where
  privKeyOk : Bool
  arenaOk : Bool
  pss : PssOracle
  newCtxtOk : Bool
  beginOk : Bool
  wrap : WrapOracle
deriving DecidableEq, Repr

structure InitResult where
  storedProxy : Option Nat
  pending : Option JssError
  state : NativeState
deriving DecidableEq, Repr

/-- The `finish:` block of `initSigContext` (lines 112-122): if a context
was created but no Java wrapper, destroy the context; then
`PORT_FreeArena(arena, PR_TRUE)` on whatever the local `arena` variable
still holds. -/
def initSigFinish (contextProxy ctxt arena : Option Nat) (pending : Option JssError)
    (s : NativeState) : InitResult :=
  let s := match contextProxy, ctxt with
           | none, some c => s.destroyCtxt c
           | _, _ => s
  let s := s.freeArenaPtr arena
  { storedProxy := contextProxy, pending := pending, state := s }

/-- Tail of `initSigContext` from context creation onward (lines 84-111):
`SGN_NewContext`/`SGN_NewContextWithAlgorithmID`, `SGN_Begin`, wrap into
a proxy, store in the Java object.  `arena` is the local arena variable
at that point (`some a` only on the RSA-PSS path). -/
def initSigRest (o : InitSigOracle) (arena : Option Nat) (s : NativeState) : InitResult :=
  if o.newCtxtOk = false then
    initSigFinish none none arena
      (some (JssError.tokenException (some ErrMsg.unableToCreateSigningContext))) s
  else
    let r := s.allocCtxt
    match r with
    | (c, s) =>
      if o.beginOk = false then
        initSigFinish none (some c) arena
          (some (JssError.tokenException (some ErrMsg.unableToBeginSigningContext))) s
      else
        let w := JSS_PK11_wrapSigContextProxy o.wrap c SigContextType.SGN_CONTEXT
                   (some arena) s
        let arenaAfter : Option Nat := match w.arenaVar with
                                       | some a => a
                                       | none => arena
        match w.Context with
        | none => initSigFinish none w.ctxtVar arenaAfter w.pending w.state
        | some p => initSigFinish (some p) w.ctxtVar arenaAfter none w.state

/-- Model of `Java_org_mozilla_jss_pkcs11_PK11Signature_initSigContext`
(lines 52-123).  For `SEC_OID_PKCS1_RSA_PSS_SIGNATURE` an arena is
allocated and the PSS builder runs before context creation; any path
on which no proxy is produced reaches the `finish:` cleanup. -/
def initSigContext (o : InitSigOracle) (sig : SigObj) (s : NativeState) : InitResult :=
  if o.privKeyOk = false then
    initSigFinish none none none (some (JssError.tokenException none)) s
  else
    let privk := 0
    let signingAlg := (getAlgorithm { getClassOk := true, getFieldOk := true } sig).tag
    if signingAlg = SEC_OID_PKCS1_RSA_PSS_SIGNATURE then
      if o.arenaOk = false then
        initSigFinish none none none (some JssError.outOfMemoryError) s
      else
        let r := s.allocArena
        match r with
        | (arena, s) =>
          let pr := getRSAPSSParamsAndSigningAlg o.pss sig privk false
          if pr.rv = SECStatus.SECFailure then
            initSigFinish none none (some arena) pr.pending s
          else
            initSigRest o (some arena) s
    else
      initSigRest o none s

/-! ## Context factory: initVfyContext (lines 125-212) -/

/-- Oracle for the fallible calls of `initVfyContext`: `getPublicKey`,
`SECKEY_CreateRSAPrivateKey`, `PORT_NewArena`, the PSS-builder calls,
`VFY_CreateContext`(`WithAlgorithmID`), `VFY_Begin` and the wrap calls. -/
structure InitVfyOracle where
  pubKeyOk : Bool
  tempKeyOk : Bool
  arenaOk : Bool
  pss : PssOracle
  newCtxtOk : Bool
  beginOk : Bool
  wrap : WrapOracle
deriving DecidableEq, Repr

/-- Which key object a `VFY_CreateContext`(`WithAlgorithmID`) call received
as its key argument. -/
inductive VfyKeyArg
  | publicKey
  | placeholderPrivateKey
deriving DecidableEq, Repr

structure InitVfyResult where
  storedProxy : Option Nat
  pending : Option JssError
  state : NativeState
  vfyCreateKeyArg : Option VfyKeyArg
  createKeyBits : Option Nat
deriving DecidableEq, Repr

/-- The `finish:` block of `initVfyContext` (lines 198-211): destroy the
context when no wrapper was made, destroy the temporary public and
private keys (no-ops when NULL), free the arena still held locally. -/
def initVfyFinish (contextProxy ctxt tempPubKey privk arena : Option Nat)
    (pending : Option JssError) (vfyCreateKeyArg : Option VfyKeyArg)
    (createKeyBits : Option Nat) (s : NativeState) : InitVfyResult :=
  let s := match contextProxy, ctxt with
           | none, some c => s.destroyCtxt c
           | _, _ => s
  let s := s.destroyKeyPtr tempPubKey
  let s := s.destroyKeyPtr privk
  let s := s.freeArenaPtr arena
  { storedProxy := contextProxy, pending := pending, state := s,
    vfyCreateKeyArg := vfyCreateKeyArg, createKeyBits := createKeyBits }

/-- Tail of `initVfyContext` from context creation onward (lines 170-197).
Both `VFY_CreateContextWithAlgorithmID` (PSS, line 170) and
`VFY_CreateContext` (line 173) receive the PUBLIC key `pubk` as key
argument, recorded in `vfyCreateKeyArg`. -/
def initVfyRest (o : InitVfyOracle) (tempPubKey privk arena : Option Nat)
    (createKeyBits : Option Nat) (s : NativeState) : InitVfyResult :=
  let keyArg : Option VfyKeyArg := some VfyKeyArg.publicKey
  if o.newCtxtOk = false then
    initVfyFinish none none tempPubKey privk arena
      (some (JssError.tokenException (some ErrMsg.unableToCreateVfyContext)))
      keyArg createKeyBits s
  else
    let r := s.allocCtxt
    match r with
    | (c, s) =>
      if o.beginOk = false then
        initVfyFinish none (some c) tempPubKey privk arena
          (some (JssError.tokenException (some ErrMsg.unableToBeginVerificationContext)))
          keyArg createKeyBits s
      else
        let w := JSS_PK11_wrapSigContextProxy o.wrap c SigContextType.VFY_CONTEXT
                   (some arena) s
        let arenaAfter : Option Nat := match w.arenaVar with
                                       | some a => a
                                       | none => arena
        match w.Context with
        | none =>
          initVfyFinish none w.ctxtVar tempPubKey privk arenaAfter w.pending
            keyArg createKeyBits w.state
        | some p =>
          initVfyFinish (some p) w.ctxtVar tempPubKey privk arenaAfter none
            keyArg createKeyBits w.state

/-- Model of `Java_org_mozilla_jss_pkcs11_PK11Signature_initVfyContext`
(lines 125-212).  On the RSA-PSS path a placeholder private key is
synthesized by `SECKEY_CreateRSAPrivateKey(key_bits, &tempPubKey, NULL)`
where `key_bits = SECKEY_PublicKeyStrengthInBits(pubk)` (the `pubkBits`
parameter); `createKeyBits` records the bit strength passed to that
call. -/
def initVfyContext (o : InitVfyOracle) (sig : SigObj) (pubkBits : Nat)
    (s : NativeState) : InitVfyResult :=
  if o.pubKeyOk = false then
    initVfyFinish none none none none none (some (JssError.tokenException none))
      none none s
  else
    let signingAlg := (getAlgorithm { getClassOk := true, getFieldOk := true } sig).tag
    if signingAlg = SEC_OID_PKCS1_RSA_PSS_SIGNATURE then
      let createKeyBits := some pubkBits
      if o.tempKeyOk = false then
        initVfyFinish none none none none none
          (some (JssError.tokenException (some ErrMsg.unableToCreateTempRSAKey)))
          none createKeyBits s
      else
        let r1 := s.allocKey
        match r1 with
        | (pk, s) =>
          let r2 := s.allocKey
          match r2 with
          | (tpk, s) =>
            if o.arenaOk = false then
              initVfyFinish none none (some tpk) (some pk) none
                (some JssError.outOfMemoryError) none createKeyBits s
            else
              let r3 := s.allocArena
              match r3 with
              | (arena, s) =>
                let pr := getRSAPSSParamsAndSigningAlg o.pss sig pk false
                if pr.rv = SECStatus.SECFailure then
                  initVfyFinish none none (some tpk) (some pk) (some arena)
                    pr.pending none createKeyBits s
                else
                  initVfyRest o (some tpk) (some pk) (some arena) createKeyBits s
    else
      initVfyRest o none none none none s

/-! ## Concrete configurations used by the claims -/

/-- A `PK11Signature` configured for RSA-PSS with no explicit digest. -/
def pssSigObj : SigObj :=
  { algorithm := some SEC_OID_PKCS1_RSA_PSS_SIGNATURE, digestAlgorithm := none }

/-- A `PK11Signature` configured for a non-PSS algorithm. -/
def nonPssSigObj : SigObj :=
  { algorithm := some SEC_OID_PKCS1_RSA_ENCRYPTION, digestAlgorithm := none }

/-- Cleanup check for one `initSigContext` run from an empty native state:
no double destroy anywhere, and if no proxy was produced then no
context, arena, proxy record or key is still live. -/
def initSigCleanFailure (o : InitSigOracle) (sig : SigObj) : Bool :=
  let r := initSigContext o sig NativeState.empty
  !r.state.doubleFree &&
    (r.storedProxy.isSome ||
      (r.state.liveCtxts.isEmpty && r.state.liveArenas.isEmpty &&
       r.state.proxyRecs.isEmpty && r.state.liveKeys.isEmpty))

/-- Cleanup check for one `initVfyContext` run from an empty native state
(the public key's bit strength is irrelevant to resource cleanup and is
fixed at 2048). -/
def initVfyCleanFailure (o : InitVfyOracle) (sig : SigObj) : Bool :=
  let r := initVfyContext o sig 2048 NativeState.empty
  !r.state.doubleFree &&
    (r.storedProxy.isSome ||
      (r.state.liveCtxts.isEmpty && r.state.liveArenas.isEmpty &&
       r.state.proxyRecs.isEmpty && r.state.liveKeys.isEmpty))

/-! # Theorems -/

/-! ## C2: bounds validation in engineUpdateNative -/

/-- Helper: under `jint` ranges, the source's bounds condition (line 241)
is equivalent to
`offset < 0 ∨ length < 0 ∨ offset ≥ n ∨ offset + length > n`
(exact integer arithmetic). -/
theorem bounds_cond_iff (n offset length : Int)
    (hn0 : 0 ≤ n) (hn : n < 2 ^ 31)
    (ho1 : -2 ^ 31 ≤ offset) (ho2 : offset < 2 ^ 31)
    (hl1 : -2 ^ 31 ≤ length) (hl2 : length < 2 ^ 31) :
    (offset < 0 ∨ offset ≥ n ∨ length < 0 ∨
        wrap32 (offset + length) > n ∨ wrap32 (offset + length) < 0)
      ↔ (offset < 0 ∨ length < 0 ∨ offset ≥ n ∨ offset + length > n) := by
  unfold wrap32
  omega

/-- C2 (counterexample): with `b = [7]` (`b.size = 1`), `offset = 1`,
`length = 0`, none of the claim's failure conditions holds — `offset`
and `length` are nonnegative, `offset + length = b.size` and the `jint`
sum does not overflow — yet `engineUpdateNative` raises the bounds
error, because the source also rejects `offset >= numBytes`
(line 241). -/
theorem engineUpdateNative_boundary_counterexample :
    (engineUpdateNative
        { getCtxOk := true, ctxErr := JssError.outOfMemoryError, refOk := true,
          ctxtType := SigContextType.SGN_CONTEXT, nativeUpdateOk := true }
        [7] 1 0).pending = some JssError.arrayIndexOutOfBoundsException
    ∧ ¬((1 : Int) < 0 ∨ (0 : Int) < 0 ∨
        (1 : Int) + 0 > (([7] : List Int).length : Int) ∨
        wrap32 ((1 : Int) + 0) ≠ (1 : Int) + 0) := by
  constructor
  · decide
  · decide

/-- C2 (amended): for `jint`-ranged `offset` and `length` and an array of
`jsize` length, `engineUpdateNative` raises the bounds error if and
only if `offset < 0`, or `length < 0`, or `offset ≥ b.size`, or
`offset + length > b.size` (in exact arithmetic, which subsumes the
`jint`-overflow case).  In particular the boundary call
`offset = b.size, length = 0` FAILS, as does
`offset = b.size, length = 1`. -/
theorem engineUpdateNative_bounds (t : SigContextType) (nOk : Bool) (e : JssError)
    (bArray : List Int) (offset length : Int)
    (hn : (bArray.length : Int) < 2 ^ 31)
    (ho1 : -2 ^ 31 ≤ offset) (ho2 : offset < 2 ^ 31)
    (hl1 : -2 ^ 31 ≤ length) (hl2 : length < 2 ^ 31) :
    (engineUpdateNative
        { getCtxOk := true, ctxErr := e, refOk := true,
          ctxtType := t, nativeUpdateOk := nOk }
        bArray offset length).pending = some JssError.arrayIndexOutOfBoundsException
      ↔ (offset < 0 ∨ length < 0 ∨ offset ≥ (bArray.length : Int) ∨
          offset + length > (bArray.length : Int)) := by
  have hiff := bounds_cond_iff (bArray.length : Int) offset length
    (by positivity) hn ho1 ho2 hl1 hl2
  by_cases hC : (offset < 0 ∨ offset ≥ (bArray.length : Int) ∨ length < 0 ∨
      wrap32 (offset + length) > (bArray.length : Int) ∨
      wrap32 (offset + length) < 0)
  · simp only [engineUpdateNative, Bool.true_eq_false, if_false, if_pos hC]
    simpa using hiff.mp hC
  · simp only [engineUpdateNative, Bool.true_eq_false, if_false, if_neg hC]
    have hnot := (not_congr hiff).mp hC
    cases nOk <;> simp [hnot]

/-- C2 (witness for the amended theorem): the boundary call
`offset = b.size = 1, length = 0` raises the bounds error. -/
theorem engineUpdateNative_bounds_witness :
    (engineUpdateNative
        { getCtxOk := true, ctxErr := JssError.outOfMemoryError, refOk := true,
          ctxtType := SigContextType.SGN_CONTEXT, nativeUpdateOk := true }
        [7] 1 0).pending = some JssError.arrayIndexOutOfBoundsException :=
  (engineUpdateNative_bounds SigContextType.SGN_CONTEXT true
      JssError.outOfMemoryError [7] 1 0 (by decide) (by decide) (by decide)
      (by decide) (by decide)).mpr (by decide)

/-! ## C3: the bad-signature rule in engineVerifyNative and engineRawVerifyNative -/

/-- C3: on the normal path (context retrieved, verify-kind proxy,
signature array referenced), `engineVerifyNative` returns `false` with
no exception exactly when `VFY_EndWithSignature` fails with
`SEC_ERROR_BAD_SIGNATURE`, and throws a SignatureException exactly when
it fails with any other error code; `engineRawVerifyNative` follows the
same rule for `PK11_Verify`. -/
theorem verify_bad_signature_rule :
    ∀ (sigArray : List Int) (out : Option Int),
      (((engineVerifyNative
            { getCtxOk := true, ctxtType := SigContextType.VFY_CONTEXT,
              refOk := true, endOutcome := out } sigArray).verified = false
        ∧ (engineVerifyNative
            { getCtxOk := true, ctxtType := SigContextType.VFY_CONTEXT,
              refOk := true, endOutcome := out } sigArray).pending = none)
          ↔ out = some SEC_ERROR_BAD_SIGNATURE)
      ∧ ((engineVerifyNative
            { getCtxOk := true, ctxtType := SigContextType.VFY_CONTEXT,
              refOk := true, endOutcome := out } sigArray).pending
            = some (JssError.signatureException
                (some ErrMsg.failedToCompleteVerification))
          ↔ ∃ e, out = some e ∧ e ≠ SEC_ERROR_BAD_SIGNATURE)
      ∧ (((engineRawVerifyNative
            { sigOk := true, hashOk := true, keyOk := true,
              verifyOutcome := out }).verified = false
        ∧ (engineRawVerifyNative
            { sigOk := true, hashOk := true, keyOk := true,
              verifyOutcome := out }).pending = none)
          ↔ out = some SEC_ERROR_BAD_SIGNATURE)
      ∧ ((engineRawVerifyNative
            { sigOk := true, hashOk := true, keyOk := true,
              verifyOutcome := out }).pending
            = some (JssError.signatureException
                (some ErrMsg.verificationFailedOnToken))
          ↔ ∃ e, out = some e ∧ e ≠ SEC_ERROR_BAD_SIGNATURE) := by
  intro sigArray out
  cases out with
  | none => simp [engineVerifyNative, engineRawVerifyNative]
  | some e =>
    by_cases he : e = SEC_ERROR_BAD_SIGNATURE <;>
      simp [engineVerifyNative, engineRawVerifyNative, he]

/-! ## C8: absence of a configured digest algorithm is not a failure -/

/-- C8: with the JNI lookups succeeding, `getDigestAlgorithm` on an
object whose `digestAlgorithm` field is null returns `SEC_OID_UNKNOWN`
with no pending exception and no assertion failure; `getAlgorithm` on
an object whose `algorithm` field is null also returns
`SEC_OID_UNKNOWN` without an exception, but its `ASSERT_OUTOFMEM`
debug assertion fires — the null field is treated as an error
condition, not a legitimate Unknown. -/
theorem digest_absence_not_failure :
    ∀ (algField digField : Option SECOidTag),
      getDigestAlgorithm { getClassOk := true, getFieldOk := true }
          { algorithm := algField, digestAlgorithm := none }
        = { tag := SEC_OID_UNKNOWN, pending := none, assertFailed := false }
      ∧ getAlgorithm { getClassOk := true, getFieldOk := true }
          { algorithm := none, digestAlgorithm := digField }
        = { tag := SEC_OID_UNKNOWN, pending := none, assertFailed := true } := by
  intro algField digField
  exact ⟨rfl, rfl⟩

/-! ## C9: asymmetric kind enforcement at finalize -/

/-- C9: `engineVerifyNative` on a proxy of kind `SGN_CONTEXT` throws a
SignatureException and never reaches the native finalize call, for
every `JSS_RefByteArray` outcome and native outcome; `engineSignNative`
on a proxy of kind `VFY_CONTEXT` is not rejected — only the debug
assertion `PR_ASSERT(type==SGN_CONTEXT)` fails, `SGN_End` is invoked
anyway, and when the native call succeeds the signature is returned
with no exception. -/
theorem finalize_kind_asymmetry :
    ∀ (sigArray : List Int) (out : Option Int) (refOk : Bool)
      (e : JssError) (sgnOut : Option (List Int)) (tOk : Bool) (bs : List Int),
      ((engineVerifyNative
          { getCtxOk := true, ctxtType := SigContextType.SGN_CONTEXT,
            refOk := refOk, endOutcome := out } sigArray).pending
          = some (JssError.signatureException
              (some ErrMsg.verificationEngineHasSignatureContext))
        ∧ (engineVerifyNative
            { getCtxOk := true, ctxtType := SigContextType.SGN_CONTEXT,
              refOk := refOk, endOutcome := out } sigArray).endCalled = false)
      ∧ ((engineSignNative
            { getCtxOk := true, ctxErr := e, ctxtType := SigContextType.VFY_CONTEXT,
              endOutcome := sgnOut, toByteArrayOk := tOk }).assertTypeFailed = true
        ∧ (engineSignNative
            { getCtxOk := true, ctxErr := e, ctxtType := SigContextType.VFY_CONTEXT,
              endOutcome := sgnOut, toByteArrayOk := tOk }).endCalled = true)
      ∧ ((engineSignNative
            { getCtxOk := true, ctxErr := e, ctxtType := SigContextType.VFY_CONTEXT,
              endOutcome := some bs, toByteArrayOk := true }).sigArray = some bs
        ∧ (engineSignNative
            { getCtxOk := true, ctxErr := e, ctxtType := SigContextType.VFY_CONTEXT,
              endOutcome := some bs, toByteArrayOk := true }).pending = none) := by
  intro sigArray out refOk e sgnOut tOk bs
  cases sgnOut <;> cases tOk <;> simp [engineVerifyNative, engineSignNative]

/-! ## C10: no copy-back into the caller's byte array -/

/-- C10: for every oracle and input, `engineUpdateNative` and
`engineVerifyNative` return the caller's byte array unchanged, and the
only buffer-release mode either function ever uses is `JNI_ABORT`
(no-copy-back): the list of performed releases is `[]` or
`[JNI_ABORT]` on every path — success, bounds rejection and native
failure alike. -/
theorem update_verify_no_copy_back :
    ∀ (a : UpdateArgs) (bArray : List Int) (offset length : Int)
      (v : VerifyArgs) (sigArray : List Int),
      ((engineUpdateNative a bArray offset length).finalArray = bArray
        ∧ ((engineUpdateNative a bArray offset length).derefModes = []
          ∨ (engineUpdateNative a bArray offset length).derefModes
              = [JniReleaseMode.abort]))
      ∧ ((engineVerifyNative v sigArray).finalArray = sigArray
        ∧ ((engineVerifyNative v sigArray).derefModes = []
          ∨ (engineVerifyNative v sigArray).derefModes
              = [JniReleaseMode.abort])) := by
  intro a bArray offset length v sigArray
  constructor
  · obtain ⟨g, ce, r, t, n⟩ := a
    cases g <;> cases r <;> cases t <;> cases n <;>
      simp [engineUpdateNative] <;> split <;> simp
  · obtain ⟨vg, vt, vr, vo⟩ := v
    cases vg <;> cases vr <;> cases vt <;> rcases vo with _ | e <;>
      first
        | (simp [engineVerifyNative]; done)
        | (simp [engineVerifyNative]; split <;> simp)

/-! ## C6: the RSA-PSS parameter builder -/

/-- C6: on success `getRSAPSSParamsAndSigningAlg` performs exactly, in
order: a zeroing arena allocation of the `SECAlgorithmID`, the digest
resolution (possibly to `SEC_OID_UNKNOWN`), the native synthesis of PSS
parameters for signature OID `SEC_OID_PKCS1_RSA_PSS_SIGNATURE`, the
resolved digest and the supplied key, and the binding of those
parameters into the `SECAlgorithmID` via `SECOID_SetAlgorithmID`; and
each failure (arena allocation, parameter synthesis, binding) yields
`SECFailure` with an out-of-memory error or a TokenException, the only
state outside the caller-owned arena being the out-parameter. -/
theorem pss_builder_spec :
    ∀ (sig : SigObj) (k : Nat) (b c : Bool),
      (getRSAPSSParamsAndSigningAlg { zallocOk := true, createParamsOk := true, setAlgOk := true }
          sig k false
        = { rv := SECStatus.SECSuccess, pending := none,
            alg := some { oid := SEC_OID_PKCS1_RSA_PSS_SIGNATURE,
                          params := some
                            { sigAlg := SEC_OID_PKCS1_RSA_PSS_SIGNATURE,
                              digest := (getDigestAlgorithm
                                { getClassOk := true, getFieldOk := true } sig).tag,
                              key := k } },
            calls := [PssCall.arenaZAlloc, PssCall.resolveDigest,
                      PssCall.createSigAlgParams SEC_OID_PKCS1_RSA_PSS_SIGNATURE
                        (getDigestAlgorithm
                          { getClassOk := true, getFieldOk := true } sig).tag k,
                      PssCall.setAlgorithmID SEC_OID_PKCS1_RSA_PSS_SIGNATURE] })
      ∧ ((getRSAPSSParamsAndSigningAlg { zallocOk := false, createParamsOk := b, setAlgOk := c }
            sig k false).rv = SECStatus.SECFailure
        ∧ (getRSAPSSParamsAndSigningAlg { zallocOk := false, createParamsOk := b, setAlgOk := c }
            sig k false).pending = some JssError.outOfMemoryError)
      ∧ ((getRSAPSSParamsAndSigningAlg { zallocOk := true, createParamsOk := false, setAlgOk := c }
            sig k false).rv = SECStatus.SECFailure
        ∧ (getRSAPSSParamsAndSigningAlg { zallocOk := true, createParamsOk := false, setAlgOk := c }
            sig k false).pending
            = some (JssError.tokenException (some ErrMsg.unableToCreateSigAlgParams)))
      ∧ ((getRSAPSSParamsAndSigningAlg { zallocOk := true, createParamsOk := true, setAlgOk := false }
            sig k false).rv = SECStatus.SECFailure
        ∧ (getRSAPSSParamsAndSigningAlg { zallocOk := true, createParamsOk := true, setAlgOk := false }
            sig k false).pending
            = some (JssError.tokenException (some ErrMsg.unableToSetRSAPSSAlgID))) := by
  intro sig k b c
  exact ⟨rfl, ⟨rfl, rfl⟩, ⟨rfl, rfl⟩, ⟨rfl, rfl⟩⟩

/-! ## C1: release is idempotent -/

/-- Helper: a record filtered out of the proxy-record list can no longer
be looked up. -/
theorem lookup_filter_ne (p : Nat) (l : List (Nat × SigContextProxyStr)) :
    (l.filter (fun e => e.1 != p)).lookup p = none := by
  induction l with
  | nil => rfl
  | cons h t ih =>
    obtain ⟨k, v⟩ := h
    by_cases hk : k = p
    · simp [List.filter_cons, hk, ih]
    · have hpk : (p == k) = false := by
        simp only [beq_eq_false_iff_ne, ne_eq]
        omega
      simp [List.filter_cons, bne_iff_ne, hk, List.lookup, hpk, ih]

/-- C1: releasing a live proxy frees its native context, its arena and
the proxy record itself, does not fault and does not double-free; the
managed pointer is cleared, so a second `release` on the same proxy
observes an already-empty proxy: it is a no-op on the state and does
not fault. -/
theorem release_idempotent (p : Nat) (rec : SigContextProxyStr) (s : NativeState)
    (hrec : s.proxyRecs.lookup p = some rec)
    (hc : rec.ctxt ∈ s.liveCtxts)
    (ha : match rec.arena with
          | some a => a ∈ s.liveArenas
          | none => True) :
    (release (some p, s)).2 = false
    ∧ (release (some p, s)).1.1 = none
    ∧ (release (some p, s)).1.2.liveCtxts = s.liveCtxts.erase rec.ctxt
    ∧ (release (some p, s)).1.2.liveArenas
        = (match rec.arena with
           | some a => s.liveArenas.erase a
           | none => s.liveArenas)
    ∧ (release (some p, s)).1.2.proxyRecs.lookup p = none
    ∧ (release (some p, s)).1.2.doubleFree = s.doubleFree
    ∧ release (release (some p, s)).1 = ((release (some p, s)).1, false) := by
  obtain ⟨c, ty, ar⟩ := rec
  simp only at hc ha
  cases ty <;> cases ar <;>
    simp_all [release, releaseNativeResources, hrec, NativeState.destroyCtxt,
      NativeState.freeArenaPtr, NativeState.freeProxyRec, lookup_filter_ne]

/-- C1 (witness): a concrete live proxy holding context 5 and arena 7 at
record address 9. -/
theorem release_idempotent_witness :
    (release (some 9, ⟨[5], [7], [(9, ⟨5, SigContextType.SGN_CONTEXT, some 7⟩)],
        [], 10, false⟩)).2 = false
    ∧ (release (some 9, ⟨[5], [7], [(9, ⟨5, SigContextType.SGN_CONTEXT, some 7⟩)],
        [], 10, false⟩)).1.1 = none
    ∧ (release (some 9, ⟨[5], [7], [(9, ⟨5, SigContextType.SGN_CONTEXT, some 7⟩)],
        [], 10, false⟩)).1.2.liveCtxts = ([5] : List Nat).erase 5
    ∧ (release (some 9, ⟨[5], [7], [(9, ⟨5, SigContextType.SGN_CONTEXT, some 7⟩)],
        [], 10, false⟩)).1.2.liveArenas
        = (match (some 7 : Option Nat) with
           | some a => ([7] : List Nat).erase a
           | none => ([7] : List Nat))
    ∧ (release (some 9, ⟨[5], [7], [(9, ⟨5, SigContextType.SGN_CONTEXT, some 7⟩)],
        [], 10, false⟩)).1.2.proxyRecs.lookup 9 = none
    ∧ (release (some 9, ⟨[5], [7], [(9, ⟨5, SigContextType.SGN_CONTEXT, some 7⟩)],
        [], 10, false⟩)).1.2.doubleFree = false
    ∧ release (release (some 9, ⟨[5], [7],
        [(9, ⟨5, SigContextType.SGN_CONTEXT, some 7⟩)], [], 10, false⟩)).1
      = ((release (some 9, ⟨[5], [7],
          [(9, ⟨5, SigContextType.SGN_CONTEXT, some 7⟩)], [], 10, false⟩)).1, false) :=
  release_idempotent 9 ⟨5, SigContextType.SGN_CONTEXT, some 7⟩
    ⟨[5], [7], [(9, ⟨5, SigContextType.SGN_CONTEXT, some 7⟩)], [], 10, false⟩
    (by decide) (by decide) (by decide)

/-! ## C5: wrap is an atomic adopt-and-null ownership move -/

/-- C5: for every outcome of `JSS_PK11_wrapSigContextProxy` with an arena
pointer passed, the caller's context variable is nulled and the
caller's arena variable is nulled, success or failure; on success the
new proxy record is the sole owner — it holds exactly the context and
arena, which remain live and undisturbed; on failure the context has
been destroyed, the arena (when present) freed, the proxy record is
gone, and nothing was freed twice. -/
theorem wrap_ownership_move (o : WrapOracle) (c : Nat) (t : SigContextType)
    (av : Option Nat) (s : NativeState)
    (hc : c ∈ s.liveCtxts)
    (ha : match av with
          | some a => a ∈ s.liveArenas
          | none => True)
    (hfresh : ∀ e ∈ s.proxyRecs, e.1 < s.nextId) :
    (JSS_PK11_wrapSigContextProxy o c t (some av) s).ctxtVar = none
    ∧ (JSS_PK11_wrapSigContextProxy o c t (some av) s).arenaVar = some none
    ∧ (match (JSS_PK11_wrapSigContextProxy o c t (some av) s).Context with
       | some p =>
         (JSS_PK11_wrapSigContextProxy o c t (some av) s).state.proxyRecs.lookup p
             = some ⟨c, t, av⟩
         ∧ (JSS_PK11_wrapSigContextProxy o c t (some av) s).state.liveCtxts
             = s.liveCtxts
         ∧ (JSS_PK11_wrapSigContextProxy o c t (some av) s).state.liveArenas
             = s.liveArenas
         ∧ (JSS_PK11_wrapSigContextProxy o c t (some av) s).state.doubleFree
             = s.doubleFree
       | none =>
         (JSS_PK11_wrapSigContextProxy o c t (some av) s).state.liveCtxts
             = s.liveCtxts.erase c
         ∧ (JSS_PK11_wrapSigContextProxy o c t (some av) s).state.liveArenas
             = (match av with
                | some a => s.liveArenas.erase a
                | none => s.liveArenas)
         ∧ (JSS_PK11_wrapSigContextProxy o c t (some av) s).state.proxyRecs
             = s.proxyRecs
         ∧ (JSS_PK11_wrapSigContextProxy o c t (some av) s).state.doubleFree
             = s.doubleFree) := by
  have hfilter : s.proxyRecs.filter (fun e => e.1 != s.nextId) = s.proxyRecs := by
    rw [List.filter_eq_self]
    intro e he
    have := hfresh e he
    simp only [bne_iff_ne, ne_eq]
    omega
  obtain ⟨m, f, g, n⟩ := o
  cases av with
  | none =>
    cases m <;> cases f <;> cases g <;> cases n <;>
      simp [JSS_PK11_wrapSigContextProxy, NativeState.allocProxyRec,
        NativeState.destroyCtxt, NativeState.freeArenaPtr, NativeState.freeProxyRec,
        List.lookup, List.filter_cons, hc, hfilter]
  | some a =>
    have ha' : a ∈ s.liveArenas := ha
    cases m <;> cases f <;> cases g <;> cases n <;>
      simp [JSS_PK11_wrapSigContextProxy, NativeState.allocProxyRec,
        NativeState.destroyCtxt, NativeState.freeArenaPtr, NativeState.freeProxyRec,
        List.lookup, List.filter_cons, hc, ha', hfilter]

/-- C5 (witness): a failing wrap (`NewObject` fails) on a concrete state
with context 3 and arena 4 live. -/
theorem wrap_ownership_move_witness :
    (JSS_PK11_wrapSigContextProxy ⟨true, true, true, false⟩ 3
        SigContextType.SGN_CONTEXT (some (some 4))
        ⟨[3], [4], [], [], 5, false⟩).ctxtVar = none
    ∧ (JSS_PK11_wrapSigContextProxy ⟨true, true, true, false⟩ 3
        SigContextType.SGN_CONTEXT (some (some 4))
        ⟨[3], [4], [], [], 5, false⟩).arenaVar = some none
    ∧ (match (JSS_PK11_wrapSigContextProxy ⟨true, true, true, false⟩ 3
          SigContextType.SGN_CONTEXT (some (some 4))
          ⟨[3], [4], [], [], 5, false⟩).Context with
       | some p =>
         (JSS_PK11_wrapSigContextProxy ⟨true, true, true, false⟩ 3
            SigContextType.SGN_CONTEXT (some (some 4))
            ⟨[3], [4], [], [], 5, false⟩).state.proxyRecs.lookup p
             = some ⟨3, SigContextType.SGN_CONTEXT, some 4⟩
         ∧ (JSS_PK11_wrapSigContextProxy ⟨true, true, true, false⟩ 3
            SigContextType.SGN_CONTEXT (some (some 4))
            ⟨[3], [4], [], [], 5, false⟩).state.liveCtxts = [3]
         ∧ (JSS_PK11_wrapSigContextProxy ⟨true, true, true, false⟩ 3
            SigContextType.SGN_CONTEXT (some (some 4))
            ⟨[3], [4], [], [], 5, false⟩).state.liveArenas = [4]
         ∧ (JSS_PK11_wrapSigContextProxy ⟨true, true, true, false⟩ 3
            SigContextType.SGN_CONTEXT (some (some 4))
            ⟨[3], [4], [], [], 5, false⟩).state.doubleFree = false
       | none =>
         (JSS_PK11_wrapSigContextProxy ⟨true, true, true, false⟩ 3
            SigContextType.SGN_CONTEXT (some (some 4))
            ⟨[3], [4], [], [], 5, false⟩).state.liveCtxts = ([3] : List Nat).erase 3
         ∧ (JSS_PK11_wrapSigContextProxy ⟨true, true, true, false⟩ 3
            SigContextType.SGN_CONTEXT (some (some 4))
            ⟨[3], [4], [], [], 5, false⟩).state.liveArenas
             = (match (some 4 : Option Nat) with
                | some a => ([4] : List Nat).erase a
                | none => ([4] : List Nat))
         ∧ (JSS_PK11_wrapSigContextProxy ⟨true, true, true, false⟩ 3
            SigContextType.SGN_CONTEXT (some (some 4))
            ⟨[3], [4], [], [], 5, false⟩).state.proxyRecs = []
         ∧ (JSS_PK11_wrapSigContextProxy ⟨true, true, true, false⟩ 3
            SigContextType.SGN_CONTEXT (some (some 4))
            ⟨[3], [4], [], [], 5, false⟩).state.doubleFree = false) :=
  wrap_ownership_move ⟨true, true, true, false⟩ 3 SigContextType.SGN_CONTEXT
    (some 4) ⟨[3], [4], [], [], 5, false⟩ (by decide) (by decide) (by decide)

/-! ## C4: every non-proxied path destroys what it allocated -/

/-- C4: for every combination of native-call outcomes (every execution
path) of `initSigContext` and `initVfyContext`, PSS and non-PSS alike,
starting from an empty native state: no resource is ever destroyed or
freed twice (`doubleFree` stays false, across the factory and the wrap
routine), and whenever the run does not end with a context wrapped into
a stored proxy, every context, arena, proxy record and temporary key
allocated on the path has been destroyed before returning. -/
theorem init_failure_cleanup :
    (∀ (a b c d e f g h i j k : Bool),
        initSigCleanFailure ⟨a, b, ⟨c, d, e⟩, f, g, ⟨h, i, j, k⟩⟩ pssSigObj = true
        ∧ initSigCleanFailure ⟨a, b, ⟨c, d, e⟩, f, g, ⟨h, i, j, k⟩⟩ nonPssSigObj = true)
    ∧ (∀ (a b c d e f g h i j k l : Bool),
        initVfyCleanFailure ⟨a, b, c, ⟨d, e, f⟩, g, h, ⟨i, j, k, l⟩⟩ pssSigObj = true
        ∧ initVfyCleanFailure ⟨a, b, c, ⟨d, e, f⟩, g, h, ⟨i, j, k, l⟩⟩ nonPssSigObj = true) := by
  constructor <;> decide

/-! ## C7: the placeholder private key in initVfyContext -/

/-- Helper: effect of a key destroy on the live-key list alone. -/
def keysAfterDestroy (l : List Nat) (k : Option Nat) : List Nat :=
  match k with
  | none => l
  | some k => if k ∈ l then l.erase k else l

theorem liveKeys_destroyKeyPtr (s : NativeState) (k : Option Nat) :
    (s.destroyKeyPtr k).liveKeys = keysAfterDestroy s.liveKeys k := by
  cases k with
  | none => rfl
  | some k =>
    simp [NativeState.destroyKeyPtr, keysAfterDestroy]
    split <;> simp

theorem liveKeys_destroyCtxt (s : NativeState) (c : Nat) :
    (s.destroyCtxt c).liveKeys = s.liveKeys := by
  simp [NativeState.destroyCtxt]
  split <;> simp

theorem liveKeys_freeArenaPtr (s : NativeState) (a : Option Nat) :
    (s.freeArenaPtr a).liveKeys = s.liveKeys := by
  cases a with
  | none => rfl
  | some a =>
    simp [NativeState.freeArenaPtr]
    split <;> simp

theorem liveKeys_freeProxyRec (s : NativeState) (p : Nat) :
    (s.freeProxyRec p).liveKeys = s.liveKeys := by
  simp [NativeState.freeProxyRec]
  split <;> simp

theorem liveKeys_wrap (o : WrapOracle) (c : Nat) (t : SigContextType)
    (a : Option (Option Nat)) (s : NativeState) :
    (JSS_PK11_wrapSigContextProxy o c t a s).state.liveKeys = s.liveKeys := by
  obtain ⟨m, f, g, n⟩ := o
  cases m <;> cases f <;> cases g <;> cases n <;> cases a <;>
    simp [JSS_PK11_wrapSigContextProxy, NativeState.allocProxyRec,
      liveKeys_destroyCtxt, liveKeys_freeArenaPtr, liveKeys_freeProxyRec]

theorem initVfyFinish_liveKeys (cp ct tpk pk ar : Option Nat)
    (pend : Option JssError) (ka : Option VfyKeyArg) (ckb : Option Nat)
    (s : NativeState) :
    (initVfyFinish cp ct tpk pk ar pend ka ckb s).state.liveKeys
      = keysAfterDestroy (keysAfterDestroy s.liveKeys tpk) pk := by
  cases cp <;> cases ct <;>
    simp [initVfyFinish, liveKeys_destroyCtxt, liveKeys_freeArenaPtr,
      liveKeys_destroyKeyPtr]

theorem initVfyFinish_keyArg (cp ct tpk pk ar : Option Nat)
    (pend : Option JssError) (ka : Option VfyKeyArg) (ckb : Option Nat)
    (s : NativeState) :
    (initVfyFinish cp ct tpk pk ar pend ka ckb s).vfyCreateKeyArg = ka := by
  cases cp <;> cases ct <;> simp [initVfyFinish]

theorem initVfyFinish_keyBits (cp ct tpk pk ar : Option Nat)
    (pend : Option JssError) (ka : Option VfyKeyArg) (ckb : Option Nat)
    (s : NativeState) :
    (initVfyFinish cp ct tpk pk ar pend ka ckb s).createKeyBits = ckb := by
  cases cp <;> cases ct <;> simp [initVfyFinish]

theorem initVfyRest_liveKeys (o : InitVfyOracle) (tpk pk ar : Option Nat)
    (ckb : Option Nat) (s : NativeState) :
    (initVfyRest o tpk pk ar ckb s).state.liveKeys
      = keysAfterDestroy (keysAfterDestroy s.liveKeys tpk) pk := by
  unfold initVfyRest
  cases o.newCtxtOk <;> cases o.beginOk <;>
    simp [initVfyFinish_liveKeys, NativeState.allocCtxt]
  cases hW : (JSS_PK11_wrapSigContextProxy o.wrap s.nextId SigContextType.VFY_CONTEXT
      (some ar) { s with liveCtxts := s.nextId :: s.liveCtxts, nextId := s.nextId + 1 }).Context <;>
    simp [hW, initVfyFinish_liveKeys, liveKeys_wrap]

theorem initVfyRest_keyArg (o : InitVfyOracle) (tpk pk ar : Option Nat)
    (ckb : Option Nat) (s : NativeState) :
    (initVfyRest o tpk pk ar ckb s).vfyCreateKeyArg = some VfyKeyArg.publicKey := by
  unfold initVfyRest
  cases o.newCtxtOk <;> cases o.beginOk <;>
    simp [initVfyFinish_keyArg, NativeState.allocCtxt]
  cases hW : (JSS_PK11_wrapSigContextProxy o.wrap s.nextId SigContextType.VFY_CONTEXT
      (some ar) { s with liveCtxts := s.nextId :: s.liveCtxts, nextId := s.nextId + 1 }).Context <;>
    simp [hW, initVfyFinish_keyArg]

theorem initVfyRest_keyBits (o : InitVfyOracle) (tpk pk ar : Option Nat)
    (ckb : Option Nat) (s : NativeState) :
    (initVfyRest o tpk pk ar ckb s).createKeyBits = ckb := by
  unfold initVfyRest
  cases o.newCtxtOk <;> cases o.beginOk <;>
    simp [initVfyFinish_keyBits, NativeState.allocCtxt]
  cases hW : (JSS_PK11_wrapSigContextProxy o.wrap s.nextId SigContextType.VFY_CONTEXT
      (some ar) { s with liveCtxts := s.nextId :: s.liveCtxts, nextId := s.nextId + 1 }).Context <;>
    simp [hW, initVfyFinish_keyBits]

/-- C7: for every execution path of `initVfyContext` on an RSA-PSS
configuration and every public-key bit strength: all temporary keys
(the placeholder private key and its companion public key) are
destroyed before the call returns; any `VFY_CreateContext`
(`WithAlgorithmID`) call received the public key, never the placeholder
private key; and when `SECKEY_CreateRSAPrivateKey` was invoked at all,
it was invoked with exactly the public key's bit strength. -/
theorem initVfy_placeholder_key :
    ∀ (o : InitVfyOracle) (bits : Nat),
      (initVfyContext o pssSigObj bits NativeState.empty).state.liveKeys = []
      ∧ ((initVfyContext o pssSigObj bits NativeState.empty).vfyCreateKeyArg = none
        ∨ (initVfyContext o pssSigObj bits NativeState.empty).vfyCreateKeyArg
            = some VfyKeyArg.publicKey)
      ∧ ((initVfyContext o pssSigObj bits NativeState.empty).createKeyBits = none
        ∨ (initVfyContext o pssSigObj bits NativeState.empty).createKeyBits
            = some bits) := by
  intro o bits
  unfold initVfyContext
  cases hpk : o.pubKeyOk with
  | false =>
    simp [initVfyFinish_liveKeys, initVfyFinish_keyArg, initVfyFinish_keyBits,
      keysAfterDestroy, NativeState.empty]
  | true =>
    simp only [Bool.true_eq_false, if_false, getAlgorithm, pssSigObj]
    cases htk : o.tempKeyOk with
    | false =>
      simp [initVfyFinish_liveKeys, initVfyFinish_keyArg, initVfyFinish_keyBits,
        keysAfterDestroy, NativeState.empty]
    | true =>
      cases har : o.arenaOk with
      | false =>
        simp [NativeState.allocKey, NativeState.empty,
          initVfyFinish_liveKeys, initVfyFinish_keyArg, initVfyFinish_keyBits,
          keysAfterDestroy]
      | true =>
        cases hrv : (getRSAPSSParamsAndSigningAlg o.pss
            { algorithm := some SEC_OID_PKCS1_RSA_PSS_SIGNATURE,
              digestAlgorithm := none } 1 false).rv with
        | SECFailure =>
          simp [NativeState.allocKey, NativeState.allocArena, NativeState.empty, hrv,
            initVfyFinish_liveKeys, initVfyFinish_keyArg, initVfyFinish_keyBits,
            keysAfterDestroy]
        | SECSuccess =>
          simp [NativeState.allocKey, NativeState.allocArena, NativeState.empty, hrv,
            initVfyRest_liveKeys, initVfyRest_keyArg, initVfyRest_keyBits,
            keysAfterDestroy]
